import Mathlib

/-!
Verification of the `WindTunnelGH` Grasshopper adapter
(`src/windtunnel.py`): a thin class that resolves a terrain-roughness
length from a fixed table, queries the ambient document-unit scale,
substitutes a default `TunnelParameters` bundle, delegates domain
construction to the external base class
`butterfly.windtunnel.WindTunnel`, and delegates case export to the
external builder `Case.from_wind_tunnel`.

The external collaborators (unit query, base-domain constructor, case
builder) are opaque to the adapter and are modelled as parameters; the
adapter's own control flow — the lookup, its error wrapping, the `or`
default substitution, the order of the external calls, and the exact
arguments forwarded — is translated from the source.
-/

namespace Windtunnel

/-- A Python value supplied as the `landscape` argument: an integer, a
string, or a float (the shapes the spec's examples exercise). -/
inductive PyVal where
  | int (n : Int)
  | str (s : String)
  | float (q : ℚ)
  deriving DecidableEq

/-- Python's `str()` of a landscape value, as used by
`'Invalid input for landscape:{}\n{}'.format(landscape, e)`. -/
def pyStr : PyVal → String
  | PyVal.int n => toString n
  | PyVal.str s => s
  | PyVal.float q => toString q

/-- Modelled from the spec: the roughness table of `butterfly.z0.Z0`
(the `butterfly` library is not under `src/`). The spec and the
docstring of `src/windtunnel.py` (lines 22-59) give the fixed, ordered
8-entry table of aerodynamic roughness lengths in meters:
0.0002, 0.005, 0.03, 0.10, 0.25, 0.5, 1.0, 2.0. -/
def z0Table : List ℚ :=
  [2/10000, 5/1000, 3/100, 10/100, 25/100, 5/10, 1, 2]

/-- Modelled from the spec: the lookup `Z0()[landscape]` of the
external `butterfly.z0.Z0` collaborator. Per the spec
("`lookup(landscape: int) → float`, fails on out-of-range or
non-integer input") it succeeds exactly when `landscape` is an integer
in `[0,7]`, returning the table entry, and otherwise fails with an
underlying detail message (the detail strings are modelled). -/
def z0lookup : PyVal → Except String ℚ
  | PyVal.int n =>
      if 0 ≤ n ∧ n < 8 then Except.ok (z0Table.getD n.toNat 0)
      else Except.error "list index out of range"
  | PyVal.str s =>
      Except.error ("list indices must be integers, not str: " ++ s)
  | PyVal.float _ =>
      Except.error "list indices must be integers, not float"

/-- A Python value supplied as the `tunnel_parameters` argument. The
adapter only inspects its truthiness (`tunnel_parameters or
TunnelParameters()`), so the model records, for each shape, the value
and its Python truth value: `None`, an int, a bool, an opaque
caller-supplied bundle together with its truth value, or a freshly
constructed default `butterfly.windtunnel.TunnelParameters()` (which,
as a plain object, is truthy). -/
inductive TPVal (TP : Type) where
  | pynone
  | pyint (n : Int)
  | pybool (b : Bool)
  | bundle (tp : TP) (truthyFlag : Bool)
  | defaultBundle
  deriving DecidableEq

/-- Python truthiness of a `tunnel_parameters` value. -/
def TPVal.truthy {TP : Type} : TPVal TP → Bool
  | TPVal.pynone => false
  | TPVal.pyint n => n != 0
  | TPVal.pybool b => b
  | TPVal.bundle _ f => f
  | TPVal.defaultBundle => true

/-- An error escaping the adapter: either the `ValueError` the adapter
raises itself at `src/windtunnel.py:72` (carrying its formatted
message), or an opaque failure raised by an external collaborator. -/
inductive PyError where
  | valueError (msg : String)
  | externalError (tag : String)
  deriving DecidableEq

/-- The full argument tuple the adapter passes to the external base
constructor `butterfly.windtunnel.WindTunnel
.from_geometries_wind_vector_and_parameters`
(`src/windtunnel.py:81-84`): name, geometries, wind_vector, resolved
tunnel parameters, roughness, meshing parameters, zref, and the
document-unit scale factor. -/
structure BaseArgs (G V TP MP : Type) where
  name : String
  geometries : List G
  wind_vector : V
  tunnel_parameters : TPVal TP
  roughness : ℚ
  meshing_parameters : Option MP
  zref : Option ℚ
  convertToMeters : ℚ

/-- The external collaborators the adapter calls during construction:
the ambient document-unit query `convert_document_units_to_meters()`
and the base-domain constructor. Each may fail; failures are opaque
`PyError`s. -/
structure Externals (G V TP MP Dom : Type) where
  unitQuery : Except PyError ℚ
  baseCtor : BaseArgs G V TP MP → Except PyError Dom

/-- How far construction got, and with what. `lookupFailed` is the
locally raised `ValueError` (nothing after the lookup ran);
`unitQueryFailed` is a failure of the ambient unit query propagating
unchanged; `delegated` records whether a default `TunnelParameters`
was freshly constructed, the exact argument tuple handed to the base
constructor, and whatever the base constructor returned. -/
inductive Outcome (G V TP MP Dom : Type) where
  | lookupFailed (e : PyError)
  | unitQueryFailed (e : PyError)
  | delegated (constructedDefault : Bool) (args : BaseArgs G V TP MP)
      (result : Except PyError Dom)

/-- Shallow embedding of
`WindTunnelGH.from_geometries_wind_vector_and_parameters`
(`src/windtunnel.py:64-84`):
1. `roughness = Z0()[landscape]`, wrapping any lookup failure as
   `ValueError('Invalid input for landscape:{}\n{}'.format(landscape, e))`;
2. `convertToMeters = convert_document_units_to_meters()`;
3. `tunnel_parameters = tunnel_parameters or TunnelParameters()`;
4. delegation to the external base constructor with the tuple
   `(name, geometries, wind_vector, tunnel_parameters, roughness,
     meshing_parameters, zref, convertToMeters)`.
Defaults mirror the Python signature: `tunnel_parameters=None`,
`landscape=1`, `meshing_parameters=None`, `zref=None`. -/
def from_geometries_wind_vector_and_parameters {G V TP MP Dom : Type}
    (ext : Externals G V TP MP Dom) (name : String) (geometries : List G)
    (wind_vector : V) (tunnel_parameters : TPVal TP := TPVal.pynone)
    (landscape : PyVal := PyVal.int 1)
    (meshing_parameters : Option MP := none) (zref : Option ℚ := none) :
    Outcome G V TP MP Dom :=
  match z0lookup landscape with
  | Except.error e =>
      Outcome.lookupFailed
        (PyError.valueError
          ("Invalid input for landscape:" ++ pyStr landscape ++ "\n" ++ e))
  | Except.ok roughness =>
      match ext.unitQuery with
      | Except.error e => Outcome.unitQueryFailed e
      | Except.ok convertToMeters =>
          let tp := if tunnel_parameters.truthy then tunnel_parameters
                    else TPVal.defaultBundle
          let args : BaseArgs G V TP MP :=
            ⟨name, geometries, wind_vector, tp, roughness,
             meshing_parameters, zref, convertToMeters⟩
          Outcome.delegated (! tunnel_parameters.truthy) args
            (ext.baseCtor args)

/-- The value construction returns to the caller: the raised error, or
whatever the base constructor returned. -/
def Outcome.result {G V TP MP Dom : Type} :
    Outcome G V TP MP Dom → Except PyError Dom
  | Outcome.lookupFailed e => Except.error e
  | Outcome.unitQueryFailed e => Except.error e
  | Outcome.delegated _ _ r => r

/-- The external calls construction performs, in order. -/
inductive ExtCall where
  | z0Lookup
  | unitQuery
  | defaultTunnelParams
  | baseDomainCtor
  deriving DecidableEq

/-- The ordered trace of external calls an outcome entails: the lookup
always runs; the unit query runs only if the lookup succeeded; a
default `TunnelParameters()` is constructed only if the supplied value
was falsy (Python `or` short-circuits); the base constructor runs
last. -/
def Outcome.calls {G V TP MP Dom : Type} : Outcome G V TP MP Dom → List ExtCall
  | Outcome.lookupFailed _ => [ExtCall.z0Lookup]
  | Outcome.unitQueryFailed _ => [ExtCall.z0Lookup, ExtCall.unitQuery]
  | Outcome.delegated d _ _ =>
      [ExtCall.z0Lookup, ExtCall.unitQuery]
        ++ (if d then [ExtCall.defaultTunnelParams] else [])
        ++ [ExtCall.baseDomainCtor]

/-- The argument tuple handed to the base constructor, if construction
got that far. -/
def Outcome.forwardedArgs {G V TP MP Dom : Type} :
    Outcome G V TP MP Dom → Option (BaseArgs G V TP MP)
  | Outcome.delegated _ a _ => some a
  | _ => none

/-- Shallow embedding of `WindTunnelGH.to_openfoam_case`
(`src/windtunnel.py:86-88`): `return Case.from_wind_tunnel(self,
make2d_parameters)`, with the external builder as a parameter. -/
def to_openfoam_case {Dom M2D C : Type}
    (from_wind_tunnel : Dom → Option M2D → Except PyError C) (self : Dom)
    (make2d_parameters : Option M2D := none) : Except PyError C :=
  from_wind_tunnel self make2d_parameters

/-- One call issued to the external case builder: the tunnel instance
and the 2D-reduction bundle passed. -/
structure CaseBuildCall (Dom M2D : Type) where
  tunnel : Dom
  make2d : Option M2D
  deriving DecidableEq

/-- State-passing embedding of `to_openfoam_case`: the method body
reads `self` and `make2d_parameters` and assigns to neither, so the
adapter state passes through unchanged and the call record is built
from the unmodified state. -/
def to_case_step {Dom M2D : Type} (self : Dom) (make2d_parameters : Option M2D) :
    Dom × CaseBuildCall Dom M2D :=
  (self, ⟨self, make2d_parameters⟩)

/-- Unfolding lemma: behaviour of the modelled lookup on an integer
landscape. -/
theorem z0lookup_int (n : Int) :
    z0lookup (PyVal.int n)
      = if 0 ≤ n ∧ n < 8 then Except.ok (z0Table.getD n.toNat 0)
        else Except.error "list index out of range" := rfl

/-- Unfolding lemma: when the lookup fails, construction stops with
the locally raised, formatted error. -/
theorem construct_lookup_failed {G V TP MP Dom : Type}
    (ext : Externals G V TP MP Dom) (nm : String) (g : List G) (wv : V)
    (tp : TPVal TP) (mp : Option MP) (z : Option ℚ) (l : PyVal)
    (detail : String) (hl : z0lookup l = Except.error detail) :
    from_geometries_wind_vector_and_parameters ext nm g wv tp l mp z
      = Outcome.lookupFailed (PyError.valueError
          ("Invalid input for landscape:" ++ pyStr l ++ "\n" ++ detail)) := by
  unfold from_geometries_wind_vector_and_parameters
  rw [hl]

/-- Unfolding lemma: when the lookup succeeds and the ambient unit
query fails, that failure is the outcome. -/
theorem construct_unit_query_failed {G V TP MP Dom : Type}
    (ext : Externals G V TP MP Dom) (nm : String) (g : List G) (wv : V)
    (tp : TPVal TP) (mp : Option MP) (z : Option ℚ) (l : PyVal) (ρ : ℚ)
    (e : PyError) (hl : z0lookup l = Except.ok ρ)
    (huq : ext.unitQuery = Except.error e) :
    from_geometries_wind_vector_and_parameters ext nm g wv tp l mp z
      = Outcome.unitQueryFailed e := by
  unfold from_geometries_wind_vector_and_parameters
  rw [hl, huq]

/-- Unfolding lemma: when the lookup and the unit query both succeed,
construction delegates to the base constructor with the resolved
argument tuple. -/
theorem construct_delegates {G V TP MP Dom : Type}
    (ext : Externals G V TP MP Dom) (nm : String) (g : List G) (wv : V)
    (tp : TPVal TP) (mp : Option MP) (z : Option ℚ) (l : PyVal) (ρ : ℚ)
    (c : ℚ) (hl : z0lookup l = Except.ok ρ)
    (huq : ext.unitQuery = Except.ok c) :
    from_geometries_wind_vector_and_parameters ext nm g wv tp l mp z
      = Outcome.delegated (! tp.truthy)
          ⟨nm, g, wv, if tp.truthy then tp else TPVal.defaultBundle, ρ, mp, z, c⟩
          (ext.baseCtor
            ⟨nm, g, wv, if tp.truthy then tp else TPVal.defaultBundle, ρ, mp,
             z, c⟩) := by
  unfold from_geometries_wind_vector_and_parameters
  rw [hl, huq]

/-- C1: for every landscape value that is an integer in `[0,7]`,
construction succeeds (reaches delegation to the external base-domain
constructor, returning whatever it returns) and the roughness length
forwarded equals the fixed table value for that index
(0 → 0.0002, 1 → 0.005, 2 → 0.03, 3 → 0.10, 4 → 0.25, 5 → 0.5,
6 → 1.0, 7 → 2.0). -/
theorem c1_roughness_forwarded_matches_table {G V TP MP Dom : Type}
    (ext : Externals G V TP MP Dom) (nm : String) (g : List G) (wv : V)
    (tp : TPVal TP) (mp : Option MP) (z : Option ℚ) (c : ℚ) (n : Int)
    (h0 : 0 ≤ n) (h7 : n ≤ 7) (huq : ext.unitQuery = Except.ok c) :
    ∃ a : BaseArgs G V TP MP,
      from_geometries_wind_vector_and_parameters ext nm g wv tp (PyVal.int n) mp z
        = Outcome.delegated (! tp.truthy) a (ext.baseCtor a)
      ∧ a.roughness =
          [(2:ℚ)/10000, 5/1000, 3/100, 10/100, 25/100, 5/10, 1, 2].getD n.toNat 0 := by
  have hcond : 0 ≤ n ∧ n < 8 := ⟨h0, by omega⟩
  have hl : z0lookup (PyVal.int n) = Except.ok (z0Table.getD n.toNat 0) := by
    rw [z0lookup_int, if_pos hcond]
  exact ⟨_, construct_delegates ext nm g wv tp mp z _ _ c hl huq, rfl⟩

/-- Witness for C1 at landscape 7: construction delegates and forwards
roughness 2.0. -/
theorem c1_witness :
    ∃ a : BaseArgs Nat Nat Nat Nat,
      from_geometries_wind_vector_and_parameters
        (⟨Except.ok 1, fun _ => Except.ok 0⟩ : Externals Nat Nat Nat Nat Nat)
        "t" [] 0 TPVal.pynone (PyVal.int 7) none none
        = Outcome.delegated (! (TPVal.pynone : TPVal Nat).truthy) a
            ((⟨Except.ok 1, fun _ => Except.ok 0⟩ :
                Externals Nat Nat Nat Nat Nat).baseCtor a)
      ∧ a.roughness =
          [(2:ℚ)/10000, 5/1000, 3/100, 10/100, 25/100, 5/10, 1, 2].getD
            (7 : Int).toNat 0 :=
  c1_roughness_forwarded_matches_table _ "t" [] 0 TPVal.pynone none none 1 7
    (by decide) (by decide) rfl

/-- C2: for every landscape value that is not an integer in `[0,7]`,
the lookup fails with some detail, construction fails with the locally
raised error, and the error message concatenates the offending
landscape value and the underlying lookup failure detail. -/
theorem c2_invalid_landscape_error {G V TP MP Dom : Type}
    (ext : Externals G V TP MP Dom) (nm : String) (g : List G) (wv : V)
    (tp : TPVal TP) (mp : Option MP) (z : Option ℚ) (l : PyVal)
    (hl : ∀ n : Int, l = PyVal.int n → n < 0 ∨ 7 < n) :
    ∃ detail : String,
      z0lookup l = Except.error detail ∧
      (from_geometries_wind_vector_and_parameters ext nm g wv tp l mp z).result
        = Except.error (PyError.valueError
            ("Invalid input for landscape:" ++ pyStr l ++ "\n" ++ detail)) := by
  have hz : ∃ detail, z0lookup l = Except.error detail := by
    cases l with
    | int n =>
        have hrange : n < 0 ∨ 7 < n := hl n rfl
        have hcond : ¬ (0 ≤ n ∧ n < 8) := by omega
        exact ⟨_, by rw [z0lookup_int, if_neg hcond]⟩
    | str s => exact ⟨_, rfl⟩
    | float q => exact ⟨_, rfl⟩
  obtain ⟨detail, hd⟩ := hz
  refine ⟨detail, hd, ?_⟩
  rw [construct_lookup_failed ext nm g wv tp mp z l detail hd]
  rfl

/-- Witness for C2 at landscape 8 (out of range): the lookup fails and
construction returns the formatted local error. -/
theorem c2_witness :
    ∃ detail : String,
      z0lookup (PyVal.int 8) = Except.error detail ∧
      (from_geometries_wind_vector_and_parameters
          (⟨Except.ok 1, fun _ => Except.ok 0⟩ : Externals Nat Nat Nat Nat Nat)
          "t" [] 0 TPVal.pynone (PyVal.int 8) none none).result
        = Except.error (PyError.valueError
            ("Invalid input for landscape:" ++ pyStr (PyVal.int 8) ++ "\n"
              ++ detail)) :=
  c2_invalid_landscape_error _ "t" [] 0 TPVal.pynone none none (PyVal.int 8)
    (by intro n h; cases h; right; decide)

/-- C3: whenever the roughness lookup fails, construction fails
atomically: the only external call in the trace is the lookup itself —
no ambient unit query, no default `TunnelParameters` construction, no
base-domain constructor invocation, and no argument tuple is ever
handed to the base constructor. -/
theorem c3_lookup_failure_is_atomic {G V TP MP Dom : Type}
    (ext : Externals G V TP MP Dom) (nm : String) (g : List G) (wv : V)
    (tp : TPVal TP) (mp : Option MP) (z : Option ℚ) (l : PyVal)
    (detail : String) (hl : z0lookup l = Except.error detail) :
    (from_geometries_wind_vector_and_parameters ext nm g wv tp l mp z).calls
        = [ExtCall.z0Lookup]
    ∧ ExtCall.unitQuery ∉
        (from_geometries_wind_vector_and_parameters ext nm g wv tp l mp z).calls
    ∧ ExtCall.defaultTunnelParams ∉
        (from_geometries_wind_vector_and_parameters ext nm g wv tp l mp z).calls
    ∧ ExtCall.baseDomainCtor ∉
        (from_geometries_wind_vector_and_parameters ext nm g wv tp l mp z).calls
    ∧ (from_geometries_wind_vector_and_parameters ext nm g wv tp l
          mp z).forwardedArgs = none := by
  rw [construct_lookup_failed ext nm g wv tp mp z l detail hl]
  refine ⟨rfl, ?_, ?_, ?_, rfl⟩ <;> simp [Outcome.calls]

/-- Witness for C3 at landscape "x": the only external call is the
lookup and nothing is forwarded. -/
theorem c3_witness :
    (from_geometries_wind_vector_and_parameters
        (⟨Except.ok 1, fun _ => Except.ok 0⟩ : Externals Nat Nat Nat Nat Nat)
        "t" [] 0 TPVal.pynone (PyVal.str "x") none none).calls
        = [ExtCall.z0Lookup]
    ∧ ExtCall.unitQuery ∉
        (from_geometries_wind_vector_and_parameters
          (⟨Except.ok 1, fun _ => Except.ok 0⟩ : Externals Nat Nat Nat Nat Nat)
          "t" [] 0 TPVal.pynone (PyVal.str "x") none none).calls
    ∧ ExtCall.defaultTunnelParams ∉
        (from_geometries_wind_vector_and_parameters
          (⟨Except.ok 1, fun _ => Except.ok 0⟩ : Externals Nat Nat Nat Nat Nat)
          "t" [] 0 TPVal.pynone (PyVal.str "x") none none).calls
    ∧ ExtCall.baseDomainCtor ∉
        (from_geometries_wind_vector_and_parameters
          (⟨Except.ok 1, fun _ => Except.ok 0⟩ : Externals Nat Nat Nat Nat Nat)
          "t" [] 0 TPVal.pynone (PyVal.str "x") none none).calls
    ∧ (from_geometries_wind_vector_and_parameters
        (⟨Except.ok 1, fun _ => Except.ok 0⟩ : Externals Nat Nat Nat Nat Nat)
        "t" [] 0 TPVal.pynone (PyVal.str "x") none none).forwardedArgs = none :=
  c3_lookup_failure_is_atomic _ "t" [] 0 TPVal.pynone none none (PyVal.str "x")
    _ rfl

/-- C4: `to_case` is a pure delegation: it returns exactly the value
the external case builder returns for `build(self, make2d_parameters)`
— no transformation, no validation, no added error handling, so any
builder failure (an `Except.error` value) is returned unchanged. -/
theorem c4_to_case_pure_delegation {Dom M2D C : Type}
    (build : Dom → Option M2D → Except PyError C) (self : Dom)
    (p : Option M2D) : to_openfoam_case build self p = build self p := rfl

/-- C5: when `tunnel_parameters` is `None`, construction substitutes a
freshly constructed default `TunnelParameters` instance and forwards
that instance — not `None` — to the external base-domain
constructor. -/
theorem c5_none_tp_gets_default {G V TP MP Dom : Type}
    (ext : Externals G V TP MP Dom) (nm : String) (g : List G) (wv : V)
    (mp : Option MP) (z : Option ℚ) (l : PyVal) (ρ : ℚ) (c : ℚ)
    (hl : z0lookup l = Except.ok ρ) (huq : ext.unitQuery = Except.ok c) :
    ∃ a : BaseArgs G V TP MP,
      from_geometries_wind_vector_and_parameters ext nm g wv TPVal.pynone l mp z
        = Outcome.delegated true a (ext.baseCtor a)
      ∧ a.tunnel_parameters = TPVal.defaultBundle
      ∧ a.tunnel_parameters ≠ TPVal.pynone := by
  have hb := construct_delegates ext nm g wv TPVal.pynone mp z l ρ c hl huq
  simp only [TPVal.truthy, Bool.false_eq_true, if_false, Bool.not_false] at hb
  refine ⟨_, hb, rfl, ?_⟩
  simp

/-- Witness for C5 at concrete externals: `None` tunnel parameters are
replaced by the default bundle. -/
theorem c5_witness :
    ∃ a : BaseArgs Nat Nat Nat Nat,
      from_geometries_wind_vector_and_parameters
        (⟨Except.ok 1, fun _ => Except.ok 0⟩ : Externals Nat Nat Nat Nat Nat)
        "t" [] 0 TPVal.pynone (PyVal.int 3) none none
        = Outcome.delegated true a
            ((⟨Except.ok 1, fun _ => Except.ok 0⟩ :
                Externals Nat Nat Nat Nat Nat).baseCtor a)
      ∧ a.tunnel_parameters = TPVal.defaultBundle
      ∧ a.tunnel_parameters ≠ TPVal.pynone :=
  c5_none_tp_gets_default _ "t" [] 0 none none (PyVal.int 3) (10/100) 1 rfl rfl

/-- C6: `zref` and `meshing_parameters` are forwarded to the external
base-domain constructor unmodified; in particular `None` is forwarded
as `None` for either, with no local default applied. -/
theorem c6_zref_meshing_forwarded_unmodified {G V TP MP Dom : Type}
    (ext : Externals G V TP MP Dom) (nm : String) (g : List G) (wv : V)
    (tp : TPVal TP) (mp : Option MP) (z : Option ℚ) (l : PyVal) (ρ : ℚ)
    (c : ℚ) (hl : z0lookup l = Except.ok ρ)
    (huq : ext.unitQuery = Except.ok c) :
    ∃ (d : Bool) (a : BaseArgs G V TP MP),
      from_geometries_wind_vector_and_parameters ext nm g wv tp l mp z
        = Outcome.delegated d a (ext.baseCtor a)
      ∧ a.zref = z ∧ a.meshing_parameters = mp :=
  ⟨_, _, construct_delegates ext nm g wv tp mp z l ρ c hl huq, rfl, rfl⟩

/-- Witness for C6 with `zref = None` and `meshing_parameters = None`:
both are forwarded as `None`. -/
theorem c6_witness :
    ∃ (d : Bool) (a : BaseArgs Nat Nat Nat Nat),
      from_geometries_wind_vector_and_parameters
        (⟨Except.ok 1, fun _ => Except.ok 0⟩ : Externals Nat Nat Nat Nat Nat)
        "t" [] 0 TPVal.pynone (PyVal.int 0) none none
        = Outcome.delegated d a
            ((⟨Except.ok 1, fun _ => Except.ok 0⟩ :
                Externals Nat Nat Nat Nat Nat).baseCtor a)
      ∧ a.zref = none ∧ a.meshing_parameters = none :=
  c6_zref_meshing_forwarded_unmodified _ "t" [] 0 TPVal.pynone none none
    (PyVal.int 0) (2/10000) 1 rfl rfl

/-- C7: calling `to_case` twice with the same `make2d_parameters` on
the same instance issues two equal calls to the external case builder,
and the adapter state is unchanged after both calls. -/
theorem c7_to_case_repeatable_non_mutating {Dom M2D : Type} (self : Dom)
    (p : Option M2D) :
    (to_case_step (to_case_step self p).1 p).2 = (to_case_step self p).2
    ∧ (to_case_step self p).1 = self
    ∧ (to_case_step (to_case_step self p).1 p).1 = self :=
  ⟨rfl, rfl, rfl⟩

/-- C8: the `landscape` parameter defaults to 1 — a call that omits
the optional arguments coincides with one supplying `landscape = 1`
(the other omitted arguments held at their shared defaults), and with
`landscape = 1` the roughness forwarded is the table value 0.005. -/
theorem c8_landscape_defaults_to_one {G V TP MP Dom : Type}
    (ext : Externals G V TP MP Dom) (nm : String) (g : List G) (wv : V)
    (tp : TPVal TP) :
    ((from_geometries_wind_vector_and_parameters ext nm g wv tp
        : Outcome G V TP MP Dom)
      = from_geometries_wind_vector_and_parameters ext nm g wv tp (PyVal.int 1)
          none none)
    ∧ ∀ (mp : Option MP) (z : Option ℚ) (c : ℚ),
        ext.unitQuery = Except.ok c →
        ∃ a : BaseArgs G V TP MP,
          from_geometries_wind_vector_and_parameters ext nm g wv tp
              (PyVal.int 1) mp z
            = Outcome.delegated (! tp.truthy) a (ext.baseCtor a)
          ∧ a.roughness = 5/1000 := by
  refine ⟨rfl, ?_⟩
  intro mp z c huq
  exact ⟨_, construct_delegates ext nm g wv tp mp z (PyVal.int 1) (5/1000) c
    rfl huq, rfl⟩

/-- Witness for C8: at concrete externals the default-landscape call
forwards roughness 0.005. -/
theorem c8_witness :
    ((from_geometries_wind_vector_and_parameters
        (⟨Except.ok 1, fun _ => Except.ok 0⟩ : Externals Nat Nat Nat Nat Nat)
        "t" [] 0 TPVal.pynone : Outcome Nat Nat Nat Nat Nat)
      = from_geometries_wind_vector_and_parameters
          (⟨Except.ok 1, fun _ => Except.ok 0⟩ : Externals Nat Nat Nat Nat Nat)
          "t" [] 0 TPVal.pynone (PyVal.int 1) none none)
    ∧ ∃ a : BaseArgs Nat Nat Nat Nat,
        from_geometries_wind_vector_and_parameters
            (⟨Except.ok 1, fun _ => Except.ok 0⟩ : Externals Nat Nat Nat Nat Nat)
            "t" [] 0 TPVal.pynone (PyVal.int 1) none none
          = Outcome.delegated (! (TPVal.pynone : TPVal Nat).truthy) a
              ((⟨Except.ok 1, fun _ => Except.ok 0⟩ :
                  Externals Nat Nat Nat Nat Nat).baseCtor a)
        ∧ a.roughness = 5/1000 :=
  ⟨(c8_landscape_defaults_to_one _ "t" [] 0 TPVal.pynone).1,
   (c8_landscape_defaults_to_one _ "t" [] 0 TPVal.pynone).2 none none 1 rfl⟩

/-- C9: every failure other than the roughness-lookup failure
propagates unchanged: a unit-query failure is returned exactly as the
collaborator raised it (never rewrapped as the local landscape error),
whatever the base-domain constructor returns — success or failure — is
returned as-is, and the case builder's result is returned as-is by
`to_case`. -/
theorem c9_other_failures_propagate {G V TP MP Dom M2D C : Type}
    (ext : Externals G V TP MP Dom) (nm : String) (g : List G) (wv : V)
    (tp : TPVal TP) (mp : Option MP) (z : Option ℚ) (l : PyVal) (ρ : ℚ)
    (hl : z0lookup l = Except.ok ρ) :
    (∀ e : PyError, ext.unitQuery = Except.error e →
        (from_geometries_wind_vector_and_parameters ext nm g wv tp l
            mp z).result = Except.error e)
    ∧ (∀ c : ℚ, ext.unitQuery = Except.ok c →
        ∃ (d : Bool) (a : BaseArgs G V TP MP),
          from_geometries_wind_vector_and_parameters ext nm g wv tp l mp z
            = Outcome.delegated d a (ext.baseCtor a)
          ∧ (from_geometries_wind_vector_and_parameters ext nm g wv tp l
              mp z).result = ext.baseCtor a)
    ∧ (∀ (build : Dom → Option M2D → Except PyError C) (self : Dom)
          (p : Option M2D), to_openfoam_case build self p = build self p) := by
  refine ⟨?_, ?_, fun _ _ _ => rfl⟩
  · intro e huq
    rw [construct_unit_query_failed ext nm g wv tp mp z l ρ e hl huq]
    rfl
  · intro c huq
    refine ⟨_, _, construct_delegates ext nm g wv tp mp z l ρ c hl huq, ?_⟩
    rw [construct_delegates ext nm g wv tp mp z l ρ c hl huq]
    rfl

/-- Witness for C9 with a failing unit query: the collaborator's
error comes back unchanged, not rewrapped. -/
theorem c9_witness :
    (from_geometries_wind_vector_and_parameters
        (⟨Except.error (PyError.externalError "no document"),
          fun _ => Except.ok 0⟩ : Externals Nat Nat Nat Nat Nat)
        "t" [] 0 TPVal.pynone (PyVal.int 2) none none).result
      = Except.error (PyError.externalError "no document") :=
  ((@c9_other_failures_propagate Nat Nat Nat Nat Nat Nat Nat
      ⟨Except.error (PyError.externalError "no document"), fun _ => Except.ok 0⟩
      "t" [] 0 TPVal.pynone none none (PyVal.int 2) (3/100) rfl).1)
    (PyError.externalError "no document") rfl

/-- C10 (implicit): the default substitution `tunnel_parameters or
TunnelParameters()` triggers on any falsy value, not only `None`: for
every falsy `tunnel_parameters` the caller's value is discarded and a
freshly constructed default bundle is forwarded instead. -/
theorem c10_falsy_tp_replaced {G V TP MP Dom : Type}
    (ext : Externals G V TP MP Dom) (nm : String) (g : List G) (wv : V)
    (tp : TPVal TP) (mp : Option MP) (z : Option ℚ) (l : PyVal) (ρ : ℚ)
    (c : ℚ) (ht : tp.truthy = false) (hl : z0lookup l = Except.ok ρ)
    (huq : ext.unitQuery = Except.ok c) :
    ∃ a : BaseArgs G V TP MP,
      from_geometries_wind_vector_and_parameters ext nm g wv tp l mp z
        = Outcome.delegated true a (ext.baseCtor a)
      ∧ a.tunnel_parameters = TPVal.defaultBundle
      ∧ a.tunnel_parameters ≠ tp := by
  have hb := construct_delegates ext nm g wv tp mp z l ρ c hl huq
  rw [ht] at hb
  simp only [Bool.false_eq_true, if_false, Bool.not_false] at hb
  refine ⟨_, hb, rfl, ?_⟩
  intro hcontra
  have h2 : TPVal.defaultBundle = tp := hcontra
  rw [← h2] at ht
  simp [TPVal.truthy] at ht

/-- Witness for C10 at the falsy value `0` (a Python int whose truth
value is false): the caller's `0` is silently replaced by a fresh
default bundle. -/
theorem c10_witness :
    ∃ a : BaseArgs Nat Nat Nat Nat,
      from_geometries_wind_vector_and_parameters
        (⟨Except.ok 1, fun _ => Except.ok 0⟩ : Externals Nat Nat Nat Nat Nat)
        "t" [] 0 (TPVal.pyint 0) (PyVal.int 5) none none
        = Outcome.delegated true a
            ((⟨Except.ok 1, fun _ => Except.ok 0⟩ :
                Externals Nat Nat Nat Nat Nat).baseCtor a)
      ∧ a.tunnel_parameters = TPVal.defaultBundle
      ∧ a.tunnel_parameters ≠ TPVal.pyint 0 :=
  c10_falsy_tp_replaced _ "t" [] 0 (TPVal.pyint 0) none none (PyVal.int 5)
    (5/10) 1 (by decide) rfl rfl

end Windtunnel
